import Mathlib

/-!
Verification of `bin-voter.py`: a tool that reconciles N equal-length binary
files into one corrected output by majority vote at each byte offset.

The embedding below mirrors the three functions of `src/bin-voter.py`:
`_attempt_vote` (core voting policy), `get_voted_byte` (retry and interactive
escalation) and `create_corrected_firmware` (the streaming driver).
Bytes are `Nat` values (0–255 in practice), fractions are exact rationals
(`ℚ`), fallible code returns `Except`/sum-like inductives, and the blocking
interactive prompt is modelled by a finite script of operator inputs.
-/

set_option autoImplicit false

namespace BinVoter

/-- Classified payloads of the `ValueError`s raised by `_attempt_vote`
(lines 13–14, 31–38, 57–78 of the source): empty-column programming error,
tie between the two top-ranked candidates, or failure of both the absolute
threshold and the margin fallback. -/
inductive VoteError where
  | invalidInput : VoteError
  | tieConflict (tiedValues : List Nat) (sharedCount : Nat) : VoteError
  | thresholdConflict (winner : Nat) (winnerCount : Nat) (agreement : ℚ) : VoteError
deriving DecidableEq, Repr

/-- Distinct values of a list in first-occurrence order: the key order of a
Python `Counter` built from the list (insertion order). -/
def firstSeen (l : List Nat) : List Nat :=
  l.foldl (fun acc b => if b ∈ acc then acc else acc ++ [b]) []

/-- `Counter(l).items()`: each distinct byte paired with its occurrence
count, in first-occurrence order. -/
def countItems (l : List Nat) : List (Nat × Nat) :=
  (firstSeen l).map (fun b => (b, l.count b))

/-- Stable insertion into a list sorted by count descending: the new pair is
placed before the first entry whose count does not exceed it. -/
def insertByCountDesc (p : Nat × Nat) : List (Nat × Nat) → List (Nat × Nat)
  | [] => [p]
  | q :: qs => if q.2 ≤ p.2 then p :: q :: qs else q :: insertByCountDesc p qs

/-- Stable sort by count descending (insertion sort folded from the right,
so that among equal counts the earlier entry stays first). -/
def sortByCountDesc (l : List (Nat × Nat)) : List (Nat × Nat) :=
  l.foldr insertByCountDesc []

/-- `Counter(l).most_common()`: the candidate ranking, count descending; a
stable sort of the counter items, which are in first-occurrence order. -/
def mostCommon (l : List Nat) : List (Nat × Nat) :=
  sortByCountDesc (countItems l)

/-- Steps 3–6 of the voting policy, reached once the tie check has passed:
`agreement = winner_count / num_files` (line 41), the absolute threshold
check `agreement >= threshold` (line 44), and the margin-of-victory fallback
(lines 48–55), which runs only when a margin is configured and a runner-up
with positive count exists: `(winner_count - runner_up_count) /
runner_up_count >= margin`. -/
def thresholdAndMargin (w wc : Nat) (rest : List (Nat × Nat)) (num_files : Nat)
    (threshold : ℚ) (margin : Option ℚ) : Except VoteError (Nat × List (Nat × Nat)) :=
  let agreement : ℚ := (wc : ℚ) / (num_files : ℚ)
  if threshold ≤ agreement then .ok (w, (w, wc) :: rest)
  else
    match margin, rest with
    | some m, (_, rc) :: _ =>
      if 0 < rc then
        if m ≤ ((wc : ℚ) - (rc : ℚ)) / (rc : ℚ) then .ok (w, (w, wc) :: rest)
        else .error (.thresholdConflict w wc agreement)
      else .error (.thresholdConflict w wc agreement)
    | _, _ => .error (.thresholdConflict w wc agreement)

/-- `_attempt_vote` (source lines 8–78): reject an empty column, rank the
candidates, fail with a tie when the two top counts are equal (the tied
values are all candidates sharing the top count, line 33), and otherwise
apply the threshold and margin checks. On success it returns the winning
byte together with the full ranking. -/
def attempt_vote : List Nat → Nat → ℚ → Option ℚ → Except VoteError (Nat × List (Nat × Nat))
  | [], _, _, _ => .error .invalidInput
  | b0 :: bs, num_files, threshold, margin =>
    match mostCommon (b0 :: bs) with
    | [] => .error .invalidInput
    | [(w, wc)] => thresholdAndMargin w wc [] num_files threshold margin
    | (w, wc) :: (r2, c2) :: rest =>
      if wc = c2 then
        .error (.tieConflict
          ((((w, wc) :: (r2, c2) :: rest).filter (fun p => p.2 = wc)).map Prod.fst) wc)
      else thresholdAndMargin w wc ((r2, c2) :: rest) num_files threshold margin

/-- One line typed by the operator at the interactive prompt: a number, a
non-numeric string (rejected by `int()`), or Ctrl-C (`KeyboardInterrupt`). -/
inductive OpInput where
  | nonNumeric : OpInput
  | num (n : Int) : OpInput
  | interrupt : OpInput
deriving DecidableEq, Repr

/-- Result of the prompt loop: a chosen byte, an interrupt, or exhaustion of
the operator script (the real prompt would keep blocking for more input). -/
inductive PromptResult where
  | chosen (b : Nat) : PromptResult
  | interrupted : PromptResult
  | noMoreInput : PromptResult
deriving DecidableEq, Repr

/-- The `while True` selection loop of source lines 113–124: parse the line
as an integer, subtract 1, accept iff the index is in range of the candidate
list; otherwise print a message and re-prompt. Returns the result together
with the unconsumed remainder of the operator script. -/
def promptLoop (cands : List (Nat × Nat)) : List OpInput → PromptResult × List OpInput
  | [] => (.noMoreInput, [])
  | .interrupt :: rest => (.interrupted, rest)
  | .nonNumeric :: rest => promptLoop cands rest
  | .num n :: rest =>
    if 0 ≤ n - 1 ∧ (n - 1).toNat < cands.length then
      (.chosen (cands.getD (n - 1).toNat (0, 0)).1, rest)
    else promptLoop cands rest

/-- Exceptions that can escape `get_voted_byte`: a re-raised voting
`ValueError` (line 126), the all-nulls `ValueError` of line 92, or a
`KeyboardInterrupt` at the prompt. -/
inductive GvbError where
  | voteFailed (e : VoteError) : GvbError
  | allNull : GvbError
  | interrupted : GvbError
deriving DecidableEq, Repr

/-- Outcome of `get_voted_byte`: a resolved byte with its vote counts, an
escaping exception, or an eternally blocking prompt (operator script
exhausted). -/
inductive VoteOutcome where
  | resolved (b : Nat) (counts : List (Nat × Nat)) : VoteOutcome
  | fatal (e : GvbError) : VoteOutcome
  | blocked : VoteOutcome
deriving DecidableEq, Repr

/-- The tail of the `except ValueError` handler (source lines 101–126): in
interactive mode present the ranking of the original column and run the
selection loop (a valid choice returns the chosen byte paired with the
original column's counts, line 120); otherwise re-raise. -/
def resolveFailure (byte_list : List Nat) (interactive : Bool)
    (script : List OpInput) (e : VoteError) : VoteOutcome × List OpInput :=
  if interactive then
    match promptLoop (mostCommon byte_list) script with
    | (.chosen b, rest) => (.resolved b (mostCommon byte_list), rest)
    | (.interrupted, rest) => (.fatal .interrupted, rest)
    | (.noMoreInput, rest) => (.blocked, rest)
  else (.fatal (.voteFailed e), script)

/-- `get_voted_byte` (source lines 80–126): try `_attempt_vote` on the full
column; on failure, when `ignore_nulls` is set and a zero byte is present,
filter the zeros out — an empty remainder raises the all-nulls error (line
92), otherwise re-vote once on the filtered column with the ORIGINAL
`num_files` (line 97); any remaining failure goes to `resolveFailure`. -/
def get_voted_byte (byte_list : List Nat) (num_files : Nat) (threshold : ℚ)
    (margin : Option ℚ) (ignore_nulls interactive : Bool)
    (script : List OpInput) : VoteOutcome × List OpInput :=
  match attempt_vote byte_list num_files threshold margin with
  | .ok (b, counts) => (.resolved b counts, script)
  | .error e =>
    if ignore_nulls ∧ 0 ∈ byte_list then
      if (byte_list.filter (fun b => b ≠ 0)).isEmpty then (.fatal .allNull, script)
      else
        match attempt_vote (byte_list.filter (fun b => b ≠ 0)) num_files
            threshold margin with
        | .ok (b, counts) => (.resolved b counts, script)
        | .error e2 => resolveFailure byte_list interactive script e2
    else resolveFailure byte_list interactive script e

/-- One row of the discrepancy report (source lines 187–192): offset,
winning byte, the agreement fraction rendered as
`counts.get(winner, 0) / len(file_handles)` (numerator looked up in the
counts returned by `get_voted_byte`, denominator the number of input
files), and the tally of the original column. -/
structure ReportRow where
  offset : Nat
  winning_byte : Nat
  agreementNum : Nat
  agreementDen : Nat
  all_votes : List (Nat × Nat)
deriving DecidableEq, Repr

/-- Accumulated streaming state of `create_corrected_firmware`: bytes
written to the output so far, report rows, the discrepancy counter
(line 163/179), a ghost counter of Voter invocations (line 180), and the
remaining operator script for interactive prompts. -/
structure StreamState where
  outBytes : List Nat
  report : List ReportRow
  discrepancy_count : Nat
  voterCalls : Nat
  script : List OpInput
deriving DecidableEq, Repr

/-- Why the streaming loop stopped early: a fatal exception (caught at
source line 202 — the output file is removed and the process exits 1), or
an interactive prompt blocking forever. -/
inductive StreamStop where
  | fatal (e : GvbError) : StreamStop
  | blocked : StreamStop
deriving DecidableEq, Repr

/-- The per-offset body of the streaming loop (source lines 174–196): if
the column's bytes are not all equal, count the discrepancy and invoke the
Voter, appending a report row on resolution when a report is requested;
otherwise the fast path copies the shared byte directly. -/
def processColumn (num_files : Nat) (threshold : ℚ) (margin : Option ℚ)
    (reportEnabled ignore_nulls interactive : Bool)
    (offset : Nat) (col : List Nat) (st : StreamState) :
    Except StreamStop StreamState :=
  if col.all (fun b => b == col.headD 0) then
    .ok { st with outBytes := st.outBytes ++ [col.headD 0] }
  else
    let st1 := { st with discrepancy_count := st.discrepancy_count + 1,
                         voterCalls := st.voterCalls + 1 }
    match get_voted_byte col num_files threshold margin ignore_nulls interactive st.script with
    | (.resolved b counts, rest) =>
      let row : ReportRow :=
        { offset := offset, winning_byte := b,
          agreementNum := (counts.lookup b).getD 0,
          agreementDen := num_files,
          all_votes := countItems col }
      let st2 := { st1 with script := rest }
      let st3 := if reportEnabled then { st2 with report := st2.report ++ [row] } else st2
      .ok { st3 with outBytes := st3.outBytes ++ [b] }
    | (.fatal e, _) => .error (.fatal e)
    | (.blocked, _) => .error .blocked

/-- The streaming loop over the aligned byte columns in offset order
(source lines 170–200; chunked reads of equal-length files deliver exactly
the byte columns in increasing offset order). -/
def processColumns (num_files : Nat) (threshold : ℚ) (margin : Option ℚ)
    (reportEnabled ignore_nulls interactive : Bool) :
    Nat → List (List Nat) → StreamState → Except StreamStop StreamState
  | _, [], st => .ok st
  | offset, col :: cols, st =>
    match processColumn num_files threshold margin reportEnabled ignore_nulls
        interactive offset col st with
    | .ok st1 => processColumns num_files threshold margin reportEnabled ignore_nulls
        interactive (offset + 1) cols st1
    | .error e => .error e

/-- The aligned byte columns of equal-length files: column `i` holds the
`i`-th byte of every file. -/
def columnsOf (fs : List (List Nat)) (size : Nat) : List (List Nat) :=
  (List.range size).map (fun i => fs.map (fun f => f.getD i 0))

/-- Final fate of one run of `create_corrected_firmware`:
`earlyReturn` — a precondition failure that prints an error and `return`s
(the process then finishes normally with exit status 0);
`exitExists` — existing output without `--force`, `sys.exit(1)` (line 140);
`aborted` — a fatal exception during streaming, the partial output file is
removed and the process exits 1 (lines 202–209);
`blocked` — parked forever at an interactive prompt;
`completed` — the reconciled bytes, report rows and discrepancy count. -/
inductive RunOutcome where
  | earlyReturn : RunOutcome
  | exitExists : RunOutcome
  | aborted : RunOutcome
  | blocked : RunOutcome
  | completed (out : List Nat) (report : List ReportRow) (discrepancy_count : Nat) : RunOutcome
deriving DecidableEq, Repr

/-- `create_corrected_firmware` (source lines 129–226). Inputs are the
files' contents (`none` = file missing on disk), whether the output path
already exists, the `--force` flag, the voting configuration, whether a
report was requested, and the operator script. Precondition order follows
the source: empty input list (line 134), existing output without force
(line 138), missing file / size mismatch inside the `try` (lines 142–153,
both print and `return`). -/
def create_corrected_firmware (files : List (Option (List Nat)))
    (outputExists force : Bool) (threshold : ℚ) (margin : Option ℚ)
    (reportEnabled ignore_nulls interactive : Bool)
    (script : List OpInput) : RunOutcome :=
  if files.isEmpty then .earlyReturn
  else if outputExists ∧ ¬ force then .exitExists
  else if files.any (fun f => f.isNone) then .earlyReturn
  else
    let fs := files.map (fun f => f.getD [])
    let size := (fs.headD []).length
    if fs.any (fun f => f.length ≠ size) then .earlyReturn
    else
      match processColumns fs.length threshold margin reportEnabled ignore_nulls
          interactive 0 (columnsOf fs size) ⟨[], [], 0, 0, script⟩ with
      | .ok st => .completed st.outBytes st.report st.discrepancy_count
      | .error (.fatal _) => .aborted
      | .error .blocked => .blocked

/-- The output file present after the run: only a completed run leaves one
(precondition failures never create it; an aborted run removes it). -/
def RunOutcome.outputFile : RunOutcome → Option (List Nat)
  | .completed out _ _ => some out
  | _ => none

/-- The report rows persisted after the run (written only on completion,
source lines 213–219). -/
def RunOutcome.reportContent : RunOutcome → Option (List ReportRow)
  | .completed _ rep _ => some rep
  | _ => none

/-- Process exit status implied by the outcome (`none` when the process
never terminates because a prompt blocks forever): the `return`ing
precondition paths fall through to a normal exit 0 of the main script. -/
def RunOutcome.exitCode : RunOutcome → Option Nat
  | .earlyReturn => some 0
  | .exitExists => some 1
  | .aborted => some 1
  | .blocked => none
  | .completed _ _ _ => some 0

/-- An operator line that the selection loop rejects and re-prompts on:
non-numeric input, or a number outside the 1-based candidate range
(an interrupt is neither accepted nor re-prompted — it kills the run). -/
def rejectedInput (cands : List (Nat × Nat)) : OpInput → Bool
  | .nonNumeric => true
  | .num n => ! decide (0 ≤ n - 1 ∧ (n - 1).toNat < cands.length)
  | .interrupt => false

/-! ### Helper lemmas about the candidate ranking -/

theorem mem_firstSeen_aux (l : List Nat) :
    ∀ (acc : List Nat) (x : Nat),
      x ∈ l.foldl (fun a b => if b ∈ a then a else a ++ [b]) acc ↔ x ∈ acc ∨ x ∈ l := by
  induction l with
  | nil => intro acc x; simp
  | cons b l ih =>
    intro acc x
    simp only [List.foldl_cons]
    rw [ih]
    by_cases hb : b ∈ acc
    · rw [if_pos hb]
      simp only [List.mem_cons]
      constructor
      · rintro (h | h)
        · exact Or.inl h
        · exact Or.inr (Or.inr h)
      · rintro (h | h | h)
        · exact Or.inl h
        · exact Or.inl (h ▸ hb)
        · exact Or.inr h
    · rw [if_neg hb]
      simp only [List.mem_append, List.mem_singleton, List.mem_cons]
      tauto

theorem mem_firstSeen (l : List Nat) (x : Nat) : x ∈ firstSeen l ↔ x ∈ l := by
  simpa using mem_firstSeen_aux l [] x

theorem mem_insertByCountDesc (p q : Nat × Nat) (l : List (Nat × Nat)) :
    q ∈ insertByCountDesc p l ↔ q = p ∨ q ∈ l := by
  induction l with
  | nil => simp [insertByCountDesc]
  | cons a l ih =>
    unfold insertByCountDesc
    by_cases h : a.2 ≤ p.2
    · rw [if_pos h]
      simp only [List.mem_cons]
    · rw [if_neg h]
      simp only [List.mem_cons, ih]
      tauto

theorem mem_sortByCountDesc (q : Nat × Nat) (l : List (Nat × Nat)) :
    q ∈ sortByCountDesc l ↔ q ∈ l := by
  induction l with
  | nil => simp [sortByCountDesc]
  | cons a l ih =>
    show q ∈ insertByCountDesc a (sortByCountDesc l) ↔ _
    rw [mem_insertByCountDesc]
    simp [ih]

/-- Every candidate in the ranking occurs in the column, so its count is
positive: the runner-up count in the margin fallback can never be zero. -/
theorem mostCommon_count_pos (l : List Nat) (p : Nat × Nat)
    (hp : p ∈ mostCommon l) : 0 < p.2 := by
  rw [mostCommon, mem_sortByCountDesc, countItems, List.mem_map] at hp
  obtain ⟨b, hb, rfl⟩ := hp
  rw [mem_firstSeen] at hb
  simpa using List.count_pos_iff.mpr hb

/-! ### Theorems for the claims -/

/-- Fast path of the streaming loop: an all-equal column is copied directly,
leaving report, discrepancy counter and Voter-call counter untouched. -/
theorem processColumn_all_eq (num_files : Nat) (threshold : ℚ) (margin : Option ℚ)
    (reportEnabled ignore_nulls interactive : Bool) (offset : Nat)
    (col : List Nat) (st : StreamState)
    (hall : col.all (fun b => b == col.headD 0) = true) :
    processColumn num_files threshold margin reportEnabled ignore_nulls interactive
        offset col st =
      .ok { st with outBytes := st.outBytes ++ [col.headD 0] } := by
  unfold processColumn
  rw [if_pos hall]

/-- C1: for every offset at which all input files hold the identical byte
value, the driver writes that shared byte to the output, produces no
discrepancy record, does not increment the discrepancy count, and never
invokes the Voter for that offset. -/
theorem C1_fast_path (num_files : Nat) (threshold : ℚ) (margin : Option ℚ)
    (reportEnabled ignore_nulls interactive : Bool) (offset : Nat)
    (col : List Nat) (st : StreamState)
    (_hne : col ≠ []) (hall : ∀ b ∈ col, b = col.headD 0) :
    ∃ st', processColumn num_files threshold margin reportEnabled ignore_nulls
        interactive offset col st = .ok st' ∧
      st'.outBytes = st.outBytes ++ [col.headD 0] ∧
      st'.report = st.report ∧
      st'.discrepancy_count = st.discrepancy_count ∧
      st'.voterCalls = st.voterCalls := by
  refine ⟨{ st with outBytes := st.outBytes ++ [col.headD 0] }, ?_, rfl, rfl, rfl, rfl⟩
  apply processColumn_all_eq
  rw [List.all_eq_true]
  intro b hb
  exact beq_iff_eq.mpr (hall b hb)

theorem C1_fast_path_witness :
    ∃ st', processColumn 3 (13/20) none true false false 7 [5, 5, 5] ⟨[], [], 0, 0, []⟩ =
        .ok st' ∧
      st'.outBytes = [] ++ [List.headD [5, 5, 5] 0] ∧
      st'.report = [] ∧ st'.discrepancy_count = 0 ∧ st'.voterCalls = 0 :=
  C1_fast_path 3 (13/20) none true false false 7 [5, 5, 5] ⟨[], [], 0, 0, []⟩
    (by decide) (by decide)

/-- When the two top-ranked candidates have equal counts, `attempt_vote`
fails with the tie error, for every threshold and margin. -/
theorem attempt_vote_tie (bl : List Nat) (num_files : Nat)
    (threshold : ℚ) (margin : Option ℚ) (w r2 wc : Nat) (rest : List (Nat × Nat))
    (hm : mostCommon bl = (w, wc) :: (r2, wc) :: rest) :
    attempt_vote bl num_files threshold margin =
      .error (.tieConflict
        ((((w, wc) :: (r2, wc) :: rest).filter (fun p => p.2 = wc)).map Prod.fst)
        wc) := by
  cases bl with
  | nil => simp [mostCommon, countItems, firstSeen, sortByCountDesc] at hm
  | cons b0 bs =>
    simp only [attempt_vote]
    rw [hm]
    simp

/-- C2: a non-empty column whose two top-ranked candidates have equal counts
fails with a tie carrying the tied byte values and their shared count, for
every threshold and margin — the tie check precedes the threshold check. -/
theorem C2_tie_precedes_threshold (bl : List Nat) (num_files : Nat)
    (threshold : ℚ) (margin : Option ℚ) (w r2 wc : Nat) (rest : List (Nat × Nat))
    (hm : mostCommon bl = (w, wc) :: (r2, wc) :: rest) :
    attempt_vote bl num_files threshold margin =
      .error (.tieConflict
        ((((w, wc) :: (r2, wc) :: rest).filter (fun p => p.2 = wc)).map Prod.fst)
        wc) :=
  attempt_vote_tie bl num_files threshold margin w r2 wc rest hm

theorem C2_tie_precedes_threshold_witness :
    attempt_vote [0xAA, 0xAA, 0xBB, 0xBB] 4 (7/10) none =
      .error (.tieConflict [0xAA, 0xBB] 2) := by
  have h := C2_tie_precedes_threshold [0xAA, 0xAA, 0xBB, 0xBB] 4 (7/10) none
    0xAA 0xBB 2 [] (by decide)
  simpa using h

/-- The agreement recorded in a threshold-conflict error always equals
`winner_count / num_files`. -/
theorem thresholdAndMargin_agreement (w wc : Nat) (rest : List (Nat × Nat))
    (num_files : Nat) (threshold : ℚ) (margin : Option ℚ) (w' wc' : Nat) (ag : ℚ)
    (h : thresholdAndMargin w wc rest num_files threshold margin =
      .error (.thresholdConflict w' wc' ag)) :
    ag = (wc' : ℚ) / (num_files : ℚ) := by
  simp only [thresholdAndMargin] at h
  split at h
  · simp at h
  · split at h
    · split at h
      · split at h
        · simp at h
        · simp only [Except.error.injEq, VoteError.thresholdConflict.injEq] at h
          obtain ⟨-, h2, h3⟩ := h
          rw [← h2, ← h3]
      · simp only [Except.error.injEq, VoteError.thresholdConflict.injEq] at h
        obtain ⟨-, h2, h3⟩ := h
        rw [← h2, ← h3]
    · simp only [Except.error.injEq, VoteError.thresholdConflict.injEq] at h
      obtain ⟨-, h2, h3⟩ := h
      rw [← h2, ← h3]

/-- With a single candidate the tie check passes vacuously and the vote is
decided by `thresholdAndMargin`. -/
theorem attempt_vote_single (bl : List Nat) (num_files : Nat) (threshold : ℚ)
    (margin : Option ℚ) (w wc : Nat) (hm : mostCommon bl = [(w, wc)]) :
    attempt_vote bl num_files threshold margin =
      thresholdAndMargin w wc [] num_files threshold margin := by
  cases bl with
  | nil => simp [mostCommon, countItems, firstSeen, sortByCountDesc] at hm
  | cons b0 bs =>
    simp only [attempt_vote]
    rw [hm]

/-- With at least two candidates and distinct top counts the tie check
passes and the vote is decided by `thresholdAndMargin`. -/
theorem attempt_vote_no_tie (bl : List Nat) (num_files : Nat) (threshold : ℚ)
    (margin : Option ℚ) (w wc r rc : Nat) (rest : List (Nat × Nat))
    (hm : mostCommon bl = (w, wc) :: (r, rc) :: rest) (hne : wc ≠ rc) :
    attempt_vote bl num_files threshold margin =
      thresholdAndMargin w wc ((r, rc) :: rest) num_files threshold margin := by
  cases bl with
  | nil => simp [mostCommon, countItems, firstSeen, sortByCountDesc] at hm
  | cons b0 bs =>
    simp only [attempt_vote]
    rw [hm]
    simp [hne]

/-- When the threshold fails, a margin is configured and a runner-up with
positive count exists, the outcome is decided by the margin comparison. -/
theorem thresholdAndMargin_margin (w wc r rc : Nat) (rest : List (Nat × Nat))
    (num_files : Nat) (threshold m : ℚ)
    (hth : ¬ threshold ≤ (wc : ℚ) / (num_files : ℚ)) (hrc : 0 < rc) :
    thresholdAndMargin w wc ((r, rc) :: rest) num_files threshold (some m) =
      if m ≤ ((wc : ℚ) - (rc : ℚ)) / (rc : ℚ)
      then .ok (w, (w, wc) :: (r, rc) :: rest)
      else .error (.thresholdConflict w wc ((wc : ℚ) / (num_files : ℚ))) := by
  simp only [thresholdAndMargin, if_neg hth, if_pos hrc]

/-- When the threshold fails and there is no runner-up, the vote fails with
a threshold conflict whatever the margin configuration. -/
theorem thresholdAndMargin_no_runner_up (w wc : Nat) (num_files : Nat)
    (threshold : ℚ) (margin : Option ℚ)
    (hth : ¬ threshold ≤ (wc : ℚ) / (num_files : ℚ)) :
    thresholdAndMargin w wc [] num_files threshold margin =
      .error (.thresholdConflict w wc ((wc : ℚ) / (num_files : ℚ))) := by
  simp only [thresholdAndMargin, if_neg hth]

/-- C3: the margin fallback is evaluated only when the absolute threshold
check fails, a margin is configured, and a second-ranked candidate exists;
the candidate counts are always positive (so the division by the runner-up
count is never a division by zero); under those conditions the vote
succeeds with the winner iff `(winnerCount - runnerUpCount) / runnerUpCount
>= margin`; with no runner-up the margin fallback cannot save a failed
threshold; and the spec's concrete column resolves to 0xAA. -/
theorem C3_margin_fallback :
    (∀ (bl : List Nat) (p : Nat × Nat), p ∈ mostCommon bl → 0 < p.2) ∧
    (∀ (bl : List Nat) (num_files : Nat) (threshold m : ℚ)
        (w wc r rc : Nat) (rest : List (Nat × Nat)),
      mostCommon bl = (w, wc) :: (r, rc) :: rest →
      wc ≠ rc →
      ¬ threshold ≤ (wc : ℚ) / (num_files : ℚ) →
      (attempt_vote bl num_files threshold (some m) = .ok (w, mostCommon bl) ↔
        m ≤ ((wc : ℚ) - (rc : ℚ)) / (rc : ℚ))) ∧
    (∀ (bl : List Nat) (num_files : Nat) (threshold m : ℚ) (w wc : Nat),
      mostCommon bl = [(w, wc)] →
      ¬ threshold ≤ (wc : ℚ) / (num_files : ℚ) →
      attempt_vote bl num_files threshold (some m) =
        .error (.thresholdConflict w wc ((wc : ℚ) / (num_files : ℚ)))) ∧
    attempt_vote [0xAA, 0xAA, 0xAA, 0xBB, 0xCC] 5 (9/10) (some 1) =
      .ok (0xAA, [(0xAA, 3), (0xBB, 1), (0xCC, 1)]) := by
  refine ⟨mostCommon_count_pos, ?_, ?_, ?_⟩
  · intro bl num_files threshold m w wc r rc rest hm hne hth
    have hrc : 0 < rc := by
      have : (r, rc) ∈ mostCommon bl := by rw [hm]; simp
      simpa using mostCommon_count_pos bl (r, rc) this
    rw [attempt_vote_no_tie bl num_files threshold (some m) w wc r rc rest hm hne]
    rw [thresholdAndMargin_margin w wc r rc rest num_files threshold m hth hrc]
    rw [hm]
    by_cases hmar : m ≤ ((wc : ℚ) - (rc : ℚ)) / (rc : ℚ)
    · rw [if_pos hmar]
      simp [hmar]
    · rw [if_neg hmar]
      simp [hmar]
  · intro bl num_files threshold m w wc hm hth
    rw [attempt_vote_single bl num_files threshold (some m) w wc hm]
    exact thresholdAndMargin_no_runner_up w wc num_files threshold (some m) hth
  · rw [attempt_vote_no_tie [0xAA, 0xAA, 0xAA, 0xBB, 0xCC] 5 (9/10) (some 1)
      0xAA 3 0xBB 1 [(0xCC, 1)] (by decide) (by decide)]
    rw [thresholdAndMargin_margin 0xAA 3 0xBB 1 [(0xCC, 1)] 5 (9/10) 1
      (by push_cast; norm_num) (by norm_num)]
    norm_num

theorem C3_margin_fallback_witness :
    attempt_vote [0xAA, 0xAA, 0xAA, 0xBB] 4 (9/10) (some (1/2)) =
      .ok (0xAA, mostCommon [0xAA, 0xAA, 0xAA, 0xBB]) :=
  (C3_margin_fallback.2.1 [0xAA, 0xAA, 0xAA, 0xBB] 4 (9/10) (1/2)
      0xAA 3 0xBB 1 [] (by decide) (by decide) (by norm_num)).mpr (by norm_num)

/-- C4: the agreement fraction is always `winnerCount / num_files` with the
original file count as denominator, also on the ignore-nulls retry: on the
spec's column `[0xAA,0xAA,0x00,0x00]` with 4 files the initial vote ties,
the null-filtered retry on `[0xAA,0xAA]` computes agreement 2/4 = 1/2 and
therefore fails for every threshold above 1/2 (with a column-length
denominator it would be 2/2 = 1 and pass). -/
theorem C4_agreement_denominator :
    (∀ (bl : List Nat) (num_files : Nat) (threshold : ℚ) (margin : Option ℚ)
        (w wc : Nat) (ag : ℚ),
      attempt_vote bl num_files threshold margin =
        .error (.thresholdConflict w wc ag) →
      ag = (wc : ℚ) / (num_files : ℚ)) ∧
    (∀ threshold : ℚ, 1/2 < threshold →
      (get_voted_byte [0xAA, 0xAA, 0x00, 0x00] 4 threshold none true false []).fst =
        .fatal (.voteFailed (.thresholdConflict 0xAA 2 (1/2)))) := by
  constructor
  · intro bl num_files threshold margin w wc ag h
    cases bl with
    | nil => simp [attempt_vote] at h
    | cons b0 bs =>
      simp only [attempt_vote] at h
      split at h
      · simp at h
      · exact thresholdAndMargin_agreement _ _ _ num_files threshold margin w wc ag h
      · split at h
        · simp at h
        · exact thresholdAndMargin_agreement _ _ _ num_files threshold margin w wc ag h
  · intro threshold ht
    have hna : ¬ threshold ≤ ((2 : Nat) : ℚ) / ((4 : Nat) : ℚ) := by
      push_cast
      rw [show (2 : ℚ) / 4 = 1 / 2 by norm_num]
      exact not_le.mpr ht
    have h2 : attempt_vote [0xAA, 0xAA] 4 threshold none =
        .error (.thresholdConflict 0xAA 2 (((2 : Nat) : ℚ) / ((4 : Nat) : ℚ))) := by
      rw [attempt_vote_single [0xAA, 0xAA] 4 threshold none 0xAA 2 (by decide)]
      exact thresholdAndMargin_no_runner_up 0xAA 2 4 threshold none hna
    have h1 : attempt_vote [0xAA, 0xAA, 0x00, 0x00] 4 threshold none =
        .error (.tieConflict [0xAA, 0x00] 2) := by
      have := attempt_vote_tie [0xAA, 0xAA, 0x00, 0x00] 4 threshold none
        0xAA 0x00 2 [] (by decide)
      simpa using this
    simp only [get_voted_byte, h1]
    norm_num [resolveFailure, h2]

theorem C4_agreement_denominator_witness :
    (1 : ℚ) / 2 < (3 : ℚ) / 4 ∧
    (get_voted_byte [0xAA, 0xAA, 0x00, 0x00] 4 (3/4) none true false []).1 =
      .fatal (.voteFailed (.thresholdConflict 0xAA 2 (1/2))) :=
  ⟨by norm_num, C4_agreement_denominator.2 (3/4) (by norm_num)⟩

/-- Over an empty candidate list the selection loop can never accept: every
numeric input is out of range, so it either drains the script or hits an
interrupt. -/
theorem promptLoop_nil_no_choice (s : List OpInput) :
    (promptLoop [] s).1 = .noMoreInput ∨ (promptLoop [] s).1 = .interrupted := by
  induction s with
  | nil => left; rfl
  | cons i rest ih =>
    cases i with
    | nonNumeric => simpa [promptLoop] using ih
    | interrupt => right; rfl
    | num n =>
      have hno : ¬ (0 ≤ n - 1 ∧ (n - 1).toNat < ([] : List (Nat × Nat)).length) := by
        simp
      simpa [promptLoop, if_neg hno] using ih

/-- C6 at its failing input: two input files of unequal size (contents
`[0x00]` and `[0x00, 0x01]`) pass the existing-output check, then the size
check prints its error and returns — the run ends as `earlyReturn`, whose
process exit status is 0 (not the non-zero status the claim requires),
though indeed no output is written. -/
theorem C6_size_mismatch_exits_zero :
    create_corrected_firmware [some [0x00], some [0x00, 0x01]] false false
        (13/20) none false false false [] = .earlyReturn ∧
    RunOutcome.exitCode .earlyReturn = some 0 ∧
    RunOutcome.outputFile .earlyReturn = none :=
  ⟨rfl, rfl, rfl⟩

/-- C7 counterexample: with interactive mode enabled, the empty-column
InvalidInput error is caught by the same generic handler as tie/threshold
conflicts and routed into the interactive prompt (which then re-prompts
forever over an empty candidate list), instead of propagating as the fatal
InvalidInput failure the claim describes. -/
theorem C7_empty_column_counterexample :
    (get_voted_byte [] 4 (13/20) none true true [.num 1, .nonNumeric]).1 =
      .blocked ∧
    (get_voted_byte [] 4 (13/20) none true true [.num 1, .nonNumeric]).1 ≠
      .fatal (.voteFailed .invalidInput) := by
  refine ⟨rfl, ?_⟩
  rw [show (get_voted_byte [] 4 (13/20) none true true
      [.num 1, .nonNumeric]).1 = VoteOutcome.blocked from rfl]
  simp

/-- C7 (amended): voting on an empty column raises the InvalidInput
programming error; the null-filter retry never engages on it (there is no
zero byte in an empty column) and in non-interactive mode the error
propagates as a fatal InvalidInput; no conflict-resolution path can ever
resolve an empty column — but in interactive mode the generic handler does
route the error into the interactive prompt, which blocks forever
re-prompting over an empty candidate list. -/
theorem C7_empty_column (num_files : Nat) (threshold : ℚ) (margin : Option ℚ)
    (ignore_nulls : Bool) (script : List OpInput) :
    attempt_vote [] num_files threshold margin = .error .invalidInput ∧
    (get_voted_byte [] num_files threshold margin ignore_nulls false script).1 =
      .fatal (.voteFailed .invalidInput) ∧
    (∀ (interactive : Bool) (b : Nat) (counts : List (Nat × Nat)),
      (get_voted_byte [] num_files threshold margin ignore_nulls interactive
          script).1 ≠ .resolved b counts) := by
  refine ⟨rfl, ?_, ?_⟩
  · simp [get_voted_byte, attempt_vote, resolveFailure]
  · intro interactive b counts
    cases interactive with
    | false => simp [get_voted_byte, attempt_vote, resolveFailure]
    | true =>
      have h := promptLoop_nil_no_choice script
      rcases hp : promptLoop [] script with ⟨pr, rem⟩
      rw [hp] at h
      simp only at h
      simp only [get_voted_byte, attempt_vote, resolveFailure, mostCommon,
        countItems, firstSeen, sortByCountDesc, List.foldl_nil, List.map_nil,
        List.foldr_nil, hp]
      rcases h with h | h <;> subst h <;> simp

theorem C7_empty_column_witness :
    attempt_vote [] 4 (13/20) none = .error .invalidInput ∧
    (get_voted_byte [] 4 (13/20) none true false [.num 1]).1 =
      .fatal (.voteFailed .invalidInput) ∧
    (get_voted_byte [] 4 (13/20) none true true [.num 1]).1 ≠
      .resolved 0xAA [(0xAA, 4)] := by
  obtain ⟨a, b, c⟩ := C7_empty_column 4 (13/20) none true [.num 1]
  exact ⟨a, b, c true 0xAA [(0xAA, 4)]⟩

/-- A column that is not all-equal contains a non-zero byte, so the
null filter leaves a non-empty remainder. -/
theorem filter_nonzero_ne_nil (col : List Nat)
    (hne : ¬ col.all (fun b => b == col.headD 0) = true) :
    col.filter (fun b => b ≠ 0) ≠ [] := by
  intro hf
  apply hne
  have hz : ∀ b ∈ col, b = 0 := by
    intro b hb
    by_contra hb0
    have hmem : b ∈ col.filter (fun b => b ≠ 0) := by
      rw [List.mem_filter]
      exact ⟨hb, by simpa using hb0⟩
    rw [hf] at hmem
    simp at hmem
  rw [List.all_eq_true]
  intro b hb
  have h0 : col.headD 0 = 0 := by
    cases col with
    | nil => rfl
    | cons c cs => exact hz c (by simp)
  rw [beq_iff_eq, h0]
  exact hz b hb

/-- The failure handler can produce a re-raised vote error, an interrupt or
a block, never the all-null error. -/
theorem resolveFailure_not_allNull (bl : List Nat) (interactive : Bool)
    (s : List OpInput) (e : VoteError) :
    (resolveFailure bl interactive s e).1 ≠ .fatal .allNull := by
  unfold resolveFailure
  cases interactive with
  | false => simp
  | true =>
    rcases hp : promptLoop (mostCommon bl) s with ⟨pr, rem⟩
    cases pr <;> simp [hp]

/-- As long as the zero-filtered column is non-empty, `get_voted_byte`
cannot produce the all-null error. -/
theorem get_voted_byte_not_allNull (col : List Nat) (num_files : Nat)
    (threshold : ℚ) (margin : Option ℚ) (ign inter : Bool) (s : List OpInput)
    (hf : col.filter (fun b => b ≠ 0) ≠ []) :
    (get_voted_byte col num_files threshold margin ign inter s).1 ≠
      .fatal .allNull := by
  unfold get_voted_byte
  split
  · simp
  · split
    · split
      · rename_i hempty
        exact absurd (by simpa [List.isEmpty_iff] using hempty) hf
      · split
        · simp
        · apply resolveFailure_not_allNull
    · apply resolveFailure_not_allNull

/-- C10: the driver invokes voting only for columns whose bytes are not all
equal, so every column reaching the voter contains a non-zero byte: the
zero-filtered column is never empty, the all-null conflict is unreachable
from the driver, and an all-zero column always takes the fast path. -/
theorem C10_allnull_unreachable (num_files : Nat) (threshold : ℚ)
    (margin : Option ℚ) (reportEnabled ignore_nulls interactive : Bool)
    (offset : Nat) (col : List Nat) (st : StreamState)
    (hne : ¬ col.all (fun b => b == col.headD 0) = true) :
    col.filter (fun b => b ≠ 0) ≠ [] ∧
    processColumn num_files threshold margin reportEnabled ignore_nulls interactive
        offset col st ≠ .error (.fatal .allNull) ∧
    (∀ col0 : List Nat, (∀ b ∈ col0, b = 0) →
      processColumn num_files threshold margin reportEnabled ignore_nulls
          interactive offset col0 st =
        .ok { st with outBytes := st.outBytes ++ [col0.headD 0] }) := by
  refine ⟨filter_nonzero_ne_nil col hne, ?_, ?_⟩
  · have h := get_voted_byte_not_allNull col num_files threshold margin
      ignore_nulls interactive st.script (filter_nonzero_ne_nil col hne)
    simp only [processColumn, if_neg hne]
    rcases hg : get_voted_byte col num_files threshold margin ignore_nulls
        interactive st.script with ⟨out, rem⟩
    rw [hg] at h
    simp only at h
    cases out with
    | resolved b counts => simp
    | fatal e => simpa using h
    | blocked => simp
  · intro col0 hz
    apply processColumn_all_eq
    rw [List.all_eq_true]
    intro b hb
    have h0 : col0.headD 0 = 0 := by
      cases col0 with
      | nil => rfl
      | cons c cs => exact hz c (by simp)
    rw [beq_iff_eq, h0]
    exact hz b hb

theorem C10_allnull_unreachable_witness :
    ([0x00, 0x00, 0xAA] : List Nat).filter (fun b => b ≠ 0) ≠ [] ∧
    processColumn 3 (13/20) none false true false 0 [0x00, 0x00, 0xAA]
        ⟨[], [], 0, 0, []⟩ ≠ .error (.fatal .allNull) ∧
    (∀ col0 : List Nat, (∀ b ∈ col0, b = 0) →
      processColumn 3 (13/20) none false true false 0 col0 ⟨[], [], 0, 0, []⟩ =
        .ok { (⟨[], [], 0, 0, []⟩ : StreamState) with
              outBytes := [] ++ [col0.headD 0] }) :=
  C10_allnull_unreachable 3 (13/20) none false true false 0 [0x00, 0x00, 0xAA]
    ⟨[], [], 0, 0, []⟩ (by decide)

/-- Rejected operator lines are skipped: the selection loop re-prompts
without limit until a valid selection (or an interrupt) arrives. -/
theorem promptLoop_skip (cands : List (Nat × Nat)) (pre s : List OpInput)
    (hpre : ∀ i ∈ pre, rejectedInput cands i = true) :
    promptLoop cands (pre ++ s) = promptLoop cands s := by
  induction pre with
  | nil => rfl
  | cons i pre ih =>
    have hi := hpre i (by simp)
    have hrest : ∀ j ∈ pre, rejectedInput cands j = true :=
      fun j hj => hpre j (by simp [hj])
    cases i with
    | nonNumeric =>
      rw [List.cons_append]
      simp only [promptLoop]
      exact ih hrest
    | interrupt => simp [rejectedInput] at hi
    | num n =>
      rw [List.cons_append]
      simp only [promptLoop]
      have hno : ¬ (0 ≤ n - 1 ∧ (n - 1).toNat < cands.length) := by
        simp only [rejectedInput, Bool.not_eq_true'] at hi
        exact of_decide_eq_false hi
      rw [if_neg hno]
      exact ih hrest

/-- A numeric line inside the 1-based candidate range is accepted and
returns the corresponding candidate's byte. -/
theorem promptLoop_choose (cands : List (Nat × Nat)) (n : Int)
    (rest : List OpInput) (h1 : 1 ≤ n) (h2 : (n - 1).toNat < cands.length) :
    promptLoop cands (.num n :: rest) =
      (.chosen (cands.getD (n - 1).toNat (0, 0)).1, rest) := by
  simp only [promptLoop]
  rw [if_pos ⟨by omega, h2⟩]

/-- C8: once the vote (and, when taken, the null-filtered retry) has failed
and interactive mode is on, the operator selects from the ranked candidates
of the ORIGINAL unfiltered column, numbered from 1; every run of rejected
(non-numeric or out-of-range) lines is skipped and re-prompted, and a valid
1-based selection always resolves the offset to the chosen byte, whatever
the threshold and margin. -/
theorem C8_interactive_selection (col : List Nat) (num_files : Nat)
    (threshold : ℚ) (margin : Option ℚ) (ignore_nulls : Bool)
    (pre rest : List OpInput) (n : Int) (e : VoteError)
    (hfail : attempt_vote col num_files threshold margin = .error e)
    (hretry : ignore_nulls = true ∧ 0 ∈ col →
      col.filter (fun b => b ≠ 0) ≠ [] ∧
      ∃ e2, attempt_vote (col.filter (fun b => b ≠ 0)) num_files threshold
        margin = .error e2)
    (hpre : ∀ i ∈ pre, rejectedInput (mostCommon col) i = true)
    (h1 : 1 ≤ n) (h2 : (n - 1).toNat < (mostCommon col).length) :
    (get_voted_byte col num_files threshold margin ignore_nulls true
        (pre ++ .num n :: rest)).1 =
      .resolved ((mostCommon col).getD (n - 1).toNat (0, 0)).1
        (mostCommon col) := by
  have hres : ∀ e', (resolveFailure col true (pre ++ .num n :: rest) e').1 =
      .resolved ((mostCommon col).getD (n - 1).toNat (0, 0)).1 (mostCommon col) := by
    intro e'
    unfold resolveFailure
    rw [if_pos rfl, promptLoop_skip (mostCommon col) pre _ hpre,
      promptLoop_choose (mostCommon col) n rest h1 h2]
  unfold get_voted_byte
  split
  · rename_i b counts heq
    rw [hfail] at heq
    cases heq
  · rename_i e' heq
    split
    · rename_i hc
      obtain ⟨hne', e2, he2⟩ := hretry hc
      rw [if_neg (show ¬ (col.filter (fun b => b ≠ 0)).isEmpty = true from by
        simpa [List.isEmpty_iff] using hne')]
      split
      · rename_i b2 counts2 heq2
        rw [he2] at heq2
        cases heq2
      · rename_i e2' heq2
        exact hres e2'
    · exact hres e'

theorem C8_interactive_selection_witness :
    (get_voted_byte [1, 2] 2 1 none false true
        [.nonNumeric, .num 5, .num 2]).1 =
      .resolved ((mostCommon [1, 2]).getD 1 (0, 0)).1 (mostCommon [1, 2]) := by
  have h := C8_interactive_selection [1, 2] 2 1 none false
    [.nonNumeric, .num 5] [] 2 (.tieConflict [1, 2] 1) rfl
    (by rintro ⟨hc, -⟩; exact absurd hc (by decide))
    (by decide) (by decide) (by decide)
  simpa using h

/-- C5: when a fatal error (an unresolved vote conflict or an operator
interrupt) stops the streaming loop of a run that passed its preconditions,
the whole run aborts: the partially written output file is removed and the
process exits with status 1. -/
theorem C5_fatal_abort (files : List (Option (List Nat)))
    (outputExists force : Bool) (threshold : ℚ) (margin : Option ℚ)
    (reportEnabled ignore_nulls interactive : Bool) (script : List OpInput)
    (e : GvbError)
    (h1 : ¬ files.isEmpty = true)
    (h2 : ¬ (outputExists = true ∧ ¬ force = true))
    (h3 : ¬ files.any (fun f => f.isNone) = true)
    (h4 : ¬ (files.map (fun f => f.getD [])).any
      (fun f => f.length ≠ ((files.map (fun f => f.getD [])).headD []).length) = true)
    (h5 : processColumns (files.map (fun f => f.getD [])).length threshold margin
      reportEnabled ignore_nulls interactive 0
      (columnsOf (files.map (fun f => f.getD []))
        ((files.map (fun f => f.getD [])).headD []).length)
      ⟨[], [], 0, 0, script⟩ = .error (.fatal e)) :
    create_corrected_firmware files outputExists force threshold margin
        reportEnabled ignore_nulls interactive script = .aborted ∧
    (create_corrected_firmware files outputExists force threshold margin
        reportEnabled ignore_nulls interactive script).outputFile = none ∧
    (create_corrected_firmware files outputExists force threshold margin
        reportEnabled ignore_nulls interactive script).exitCode = some 1 := by
  have key : create_corrected_firmware files outputExists force threshold margin
      reportEnabled ignore_nulls interactive script = .aborted := by
    simp only [create_corrected_firmware]
    rw [if_neg h1, if_neg h2, if_neg h3, if_neg h4, h5]
  exact ⟨key, by rw [key]; rfl, by rw [key]; rfl⟩

theorem C5_fatal_abort_witness :
    create_corrected_firmware [some [0xAA], some [0xBB]] false false (13/20)
        none false false false [] = .aborted ∧
    (create_corrected_firmware [some [0xAA], some [0xBB]] false false (13/20)
        none false false false []).outputFile = none ∧
    (create_corrected_firmware [some [0xAA], some [0xBB]] false false (13/20)
        none false false false []).exitCode = some 1 :=
  C5_fatal_abort [some [0xAA], some [0xBB]] false false (13/20) none
    false false false [] (.voteFailed (.tieConflict [0xAA, 0xBB] 1))
    (by decide) (by simp) (by decide) (by decide) rfl

/-- In non-interactive mode the operator script is neither consumed nor
inspected: the outcome is that of the empty script, the script is returned
unchanged. -/
theorem get_voted_byte_noninteractive (col : List Nat) (num_files : Nat)
    (threshold : ℚ) (margin : Option ℚ) (ign : Bool) (s : List OpInput) :
    get_voted_byte col num_files threshold margin ign false s =
      ((get_voted_byte col num_files threshold margin ign false []).1, s) := by
  unfold get_voted_byte
  rcases ha : attempt_vote col num_files threshold margin with e | ⟨b, counts⟩
  · simp only
    by_cases hc : ign = true ∧ 0 ∈ col
    · rw [if_pos hc, if_pos hc]
      by_cases hemp : (col.filter (fun b => b ≠ 0)).isEmpty = true
      · rw [if_pos hemp, if_pos hemp]
      · rw [if_neg hemp, if_neg hemp]
        rcases h2 : attempt_vote (col.filter (fun b => b ≠ 0)) num_files
            threshold margin with e2 | ⟨b2, counts2⟩
        · simp [resolveFailure]
        · simp
    · rw [if_neg hc, if_neg hc]
      simp [resolveFailure]
  · simp

/-- Non-interactive streaming step, stated as a script transformation: the
result equals the empty-script run with the script field restored. -/
theorem processColumn_noninteractive (num_files : Nat) (threshold : ℚ)
    (margin : Option ℚ) (reportEnabled ignore_nulls : Bool) (offset : Nat)
    (col : List Nat) (w : List Nat) (r : List ReportRow) (d v : Nat)
    (s : List OpInput) :
    processColumn num_files threshold margin reportEnabled ignore_nulls false
        offset col ⟨w, r, d, v, s⟩ =
      Except.map (fun st => { st with script := s })
        (processColumn num_files threshold margin reportEnabled ignore_nulls false
          offset col ⟨w, r, d, v, []⟩) := by
  unfold processColumn
  by_cases hall : col.all (fun b => b == col.headD 0) = true
  · rw [if_pos hall, if_pos hall]
    rfl
  · rw [if_neg hall, if_neg hall]
    simp only
    rw [get_voted_byte_noninteractive col num_files threshold margin ignore_nulls s,
      get_voted_byte_noninteractive col num_files threshold margin ignore_nulls []]
    rcases hg : (get_voted_byte col num_files threshold margin ignore_nulls false []).1
        with ⟨b, counts⟩ | e | _
    · cases reportEnabled <;> rfl
    · rfl
    · rfl

/-- Non-interactive streaming, whole-loop version of the script
transformation. -/
theorem processColumns_noninteractive (num_files : Nat) (threshold : ℚ)
    (margin : Option ℚ) (reportEnabled ignore_nulls : Bool)
    (cols : List (List Nat)) :
    ∀ (offset : Nat) (w : List Nat) (r : List ReportRow) (d v : Nat)
      (s : List OpInput),
      processColumns num_files threshold margin reportEnabled ignore_nulls false
          offset cols ⟨w, r, d, v, s⟩ =
        Except.map (fun st => { st with script := s })
          (processColumns num_files threshold margin reportEnabled ignore_nulls
            false offset cols ⟨w, r, d, v, []⟩) := by
  induction cols with
  | nil => intros; rfl
  | cons col cols ih =>
    intro offset w r d v s
    unfold processColumns
    rw [processColumn_noninteractive]
    rcases hp : processColumn num_files threshold margin reportEnabled ignore_nulls
        false offset col ⟨w, r, d, v, []⟩ with e | st0
    · rfl
    · obtain ⟨w0, r0, d0, v0, s0⟩ := st0
      have hs0 : s0 = [] := by
        have h2 := processColumn_noninteractive num_files threshold margin
          reportEnabled ignore_nulls offset col w r d v []
        rw [hp] at h2
        simpa [Except.map] using h2
      subst hs0
      simp only [Except.map]
      exact ih (offset + 1) w0 r0 d0 v0 s

/-- C9: with interactive mode disabled a run is deterministic — its outcome
(output bytes, report rows, discrepancy count, exit behaviour) does not
depend on anything beyond the input files and the configuration; in
particular two runs with different operator input streams coincide. -/
theorem C9_deterministic_noninteractive (files : List (Option (List Nat)))
    (outputExists force : Bool) (threshold : ℚ) (margin : Option ℚ)
    (reportEnabled ignore_nulls : Bool) (s1 s2 : List OpInput) :
    create_corrected_firmware files outputExists force threshold margin
        reportEnabled ignore_nulls false s1 =
      create_corrected_firmware files outputExists force threshold margin
        reportEnabled ignore_nulls false s2 := by
  unfold create_corrected_firmware
  by_cases h1 : files.isEmpty = true
  · rw [if_pos h1, if_pos h1]
  rw [if_neg h1, if_neg h1]
  by_cases h2 : outputExists = true ∧ ¬ force = true
  · rw [if_pos h2, if_pos h2]
  rw [if_neg h2, if_neg h2]
  by_cases h3 : files.any (fun f => f.isNone) = true
  · rw [if_pos h3, if_pos h3]
  rw [if_neg h3, if_neg h3]
  simp only
  by_cases h4 : (files.map (fun f => f.getD [])).any
      (fun f => f.length ≠ ((files.map (fun f => f.getD [])).headD []).length) = true
  · rw [if_pos h4, if_pos h4]
  rw [if_neg h4, if_neg h4]
  rw [processColumns_noninteractive _ _ _ _ _ _ _ _ _ _ _ s1,
    processColumns_noninteractive _ _ _ _ _ _ _ _ _ _ _ s2]
  rcases hq : processColumns (files.map (fun f => f.getD [])).length threshold margin
      reportEnabled ignore_nulls false 0
      (columnsOf (files.map (fun f => f.getD []))
        ((files.map (fun f => f.getD [])).headD []).length)
      ⟨[], [], 0, 0, []⟩ with e | st
  · rw [hq]
    cases e <;> rfl
  · rw [hq]
    simp [Except.map]

end BinVoter
